import Mathlib

/-!
Watchface tutorial (unobstructed area): layout, time and weather callbacks

A shallow embedding of `src/watchface-tutorial.c`.  Machine integers are `Int`
or `Nat` with the 8-bit conversions written out; C strings are `List Char`
(the bytes before the terminating NUL); the static globals of the program are
the fields of `App`, and every callback is a function on `App`.
-/

namespace Watchface

/-! ## Layout arithmetic -/

/-- Conversion of a C integer to `uint8_t`: reduction modulo 256 into `0..255`. -/
def toUint8 (x : Int) : Int := x % 256

/-- Source lines 20-22.  Both parameters and the result are `uint8_t`, so the
arguments are converted on entry and the quotient is converted on return; the
product and the division are done in `int` (at most 255 * 255, no overflow). -/
def relative_pixel (percent max : Int) : Int :=
  toUint8 ((toUint8 max * toUint8 percent) / 100)

/-- Source line 17. -/
def s_time_offset_top_percent : Int := 31

/-- Source line 18. -/
def s_weather_offset_top_percent : Int := 76

/-! ## Geometry and layers of the SDK -/

structure GPoint where
  x : Int
  y : Int
deriving DecidableEq, Repr

structure GSize where
  w : Int
  h : Int
deriving DecidableEq, Repr

structure GRect where
  origin : GPoint
  size : GSize
deriving DecidableEq, Repr

/-- The SDK comparison of two rectangles: all four coordinates agree. -/
def grect_equal (a b : GRect) : Bool :=
  a.origin.x == b.origin.x && a.origin.y == b.origin.y &&
    a.size.w == b.size.w && a.size.h == b.size.h

inductive GColor where
  | GColorBlack
  | GColorWhite
  | GColorClear
deriving DecidableEq, Repr

inductive GTextAlignment where
  | GTextAlignmentLeft
  | GTextAlignmentCenter
  | GTextAlignmentRight
deriving DecidableEq, Repr

/-- The resources the program names. -/
inductive ResourceId where
  | IMAGE_BACKGROUND
  | FONT_PERFECT_DOS_48
  | FONT_PERFECT_DOS_20
deriving DecidableEq, Repr

inductive GFont where
  | system_default
  | custom (r : ResourceId)
deriving DecidableEq, Repr

/-- What a text layer points at: `text_layer_set_text` stores the pointer, not a
copy, so the layer shows whatever the pointed buffer holds. -/
inductive TextSource where
  | null
  | literal (s : List Char)
  | s_buffer
  | weather_layer_buffer
deriving DecidableEq, Repr

structure BitmapLayer where
  frame : GRect
  hidden : Bool
  bitmap : Option ResourceId
deriving DecidableEq, Repr

structure TextLayer where
  frame : GRect
  background_color : GColor
  text_color : GColor
  text : TextSource
  font : GFont
  alignment : GTextAlignment
deriving DecidableEq, Repr

/-- The children of the window's root layer, in the order they were added. -/
inductive Child where
  | background
  | time
  | weather
deriving DecidableEq, Repr

/-- A tuple written to the outbox by `dict_write_uint8`. -/
structure OutTuple where
  key : Nat
  uint8 : Nat
deriving DecidableEq, Repr

/-- The static state of the program together with the outbox of the host. -/
structure App where
  s_background_layer : BitmapLayer
  s_time_layer : TextLayer
  s_weather_layer : TextLayer
  s_time_font : GFont
  s_weather_font : GFont
  window_children : List Child
  s_buffer : List Char
  temperature_buffer : List Char
  conditions_buffer : List Char
  weather_layer_buffer : List Char
  outbox_iter : List OutTuple
  outbox_sent : List (List OutTuple)
deriving DecidableEq, Repr

/-- SDK `bitmap_layer_create`: visible, no bitmap. -/
def bitmap_layer_create (frame : GRect) : BitmapLayer :=
  { frame := frame, hidden := false, bitmap := none }

/-- SDK `text_layer_create`: black text on white, left aligned, system font,
no text. -/
def text_layer_create (frame : GRect) : TextLayer :=
  { frame := frame, background_color := GColor.GColorWhite,
    text_color := GColor.GColorBlack, text := TextSource.null,
    font := GFont.system_default,
    alignment := GTextAlignment.GTextAlignmentLeft }

/-- Source lines 24-46.  `full_bounds` and `unobstructed_bounds` are what the
host returns for the window layer at the time of the call. -/
def update_ui (full_bounds unobstructed_bounds : GRect) (s : App) : App :=
  let s1 : App :=
    if !grect_equal full_bounds unobstructed_bounds then
      { s with
        s_background_layer := { s.s_background_layer with hidden := true }
        s_time_layer := { s.s_time_layer with text_color := GColor.GColorWhite } }
    else
      { s with
        s_background_layer := { s.s_background_layer with hidden := false }
        s_time_layer := { s.s_time_layer with text_color := GColor.GColorBlack } }
  let time_frame : GRect := s1.s_time_layer.frame
  let time_frame : GRect :=
    { time_frame with
      origin := { time_frame.origin with
        y := relative_pixel s_time_offset_top_percent unobstructed_bounds.size.h } }
  let s2 : App := { s1 with s_time_layer := { s1.s_time_layer with frame := time_frame } }
  let weather_frame : GRect := s2.s_weather_layer.frame
  let weather_frame : GRect :=
    { weather_frame with
      origin := { weather_frame.origin with
        y := relative_pixel s_weather_offset_top_percent unobstructed_bounds.size.h } }
  { s2 with s_weather_layer := { s2.s_weather_layer with frame := weather_frame } }

/-- Source lines 49-85: the layers as `initialise_ui` has built them when it
reaches its final call of `update_ui`. -/
def initialise_ui_layers (bounds : GRect) (s : App) : App :=
  let background : BitmapLayer :=
    { bitmap_layer_create bounds with bitmap := some ResourceId.IMAGE_BACKGROUND }
  let time0 : TextLayer :=
    text_layer_create
      { origin := { x := 0, y := relative_pixel s_time_offset_top_percent bounds.size.h },
        size := { w := bounds.size.w, h := 50 } }
  let time1 : TextLayer :=
    { time0 with
      background_color := GColor.GColorClear
      text_color := GColor.GColorBlack
      text := TextSource.literal "00:00".toList }
  let time_font : GFont := GFont.custom ResourceId.FONT_PERFECT_DOS_48
  let time2 : TextLayer :=
    { time1 with font := time_font, alignment := GTextAlignment.GTextAlignmentCenter }
  let weather0 : TextLayer :=
    text_layer_create
      { origin := { x := 0, y := relative_pixel s_weather_offset_top_percent bounds.size.h },
        size := { w := bounds.size.w, h := 25 } }
  let weather1 : TextLayer :=
    { weather0 with
      background_color := GColor.GColorClear
      text_color := GColor.GColorWhite
      alignment := GTextAlignment.GTextAlignmentCenter
      text := TextSource.literal "Loading...".toList }
  let weather_font : GFont := GFont.custom ResourceId.FONT_PERFECT_DOS_20
  let weather2 : TextLayer := { weather1 with font := weather_font }
  { s with
    s_background_layer := background
    s_time_layer := time2
    s_weather_layer := weather2
    s_time_font := time_font
    s_weather_font := weather_font
    window_children := s.window_children ++ [Child.background, Child.time, Child.weather] }

/-- Source lines 48-89. -/
def initialise_ui (full_bounds unobstructed_bounds : GRect) (s : App) : App :=
  update_ui full_bounds unobstructed_bounds (initialise_ui_layers full_bounds s)

/-- Source lines 118-120. -/
def app_unobstructed_change (full_bounds unobstructed_bounds : GRect) (s : App) : App :=
  update_ui full_bounds unobstructed_bounds s

/-! ## C library formatting -/

/-- Decimal digits of a natural number, most significant first; `fuel` bounds
the number of digits and `n + 1` always suffices. -/
def decimalDigits : Nat → Nat → List Char
  | 0, _ => []
  | fuel + 1, n =>
    if n < 10 then [Nat.digitChar n]
    else decimalDigits fuel (n / 10) ++ [Nat.digitChar (n % 10)]

/-- What `%d` prints for a non-negative value. -/
def decimalNat (n : Nat) : List Char := decimalDigits (n + 1) n

/-- What `%d` prints: a minus sign for a negative value, then the digits. -/
def decimal (i : Int) : List Char :=
  if i < 0 then '-' :: decimalNat (-i).toNat else decimalNat i.toNat

inductive FormatArg where
  | int (i : Int)
  | str (s : List Char)
deriving DecidableEq, Repr

/-- Expansion of a `printf` format string with the conversions the program
uses, `%d` and `%s`; every other character is copied. -/
def printf_expand : List Char → List FormatArg → List Char
  | [], _ => []
  | '%' :: 'd' :: rest, FormatArg.int i :: args => decimal i ++ printf_expand rest args
  | '%' :: 's' :: rest, FormatArg.str t :: args => t ++ printf_expand rest args
  | c :: rest, args => c :: printf_expand rest args

/-- C `snprintf` into a buffer of `size` bytes: the expansion cut to `size - 1`
bytes, the last byte being the terminating NUL. -/
def snprintf (size : Nat) (fmt : List Char) (args : List FormatArg) : List Char :=
  (printf_expand fmt args).take (size - 1)

/-- The fields of `struct tm` the program reads; `localtime` gives an hour in
`0..23` and a minute in `0..59`. -/
structure Tm where
  tm_hour : Nat
  tm_min : Nat
deriving DecidableEq, Repr

/-- A number printed on at least two digits, padded with a zero. -/
def pad2 (n : Nat) : List Char :=
  if n < 10 then ['0', Nat.digitChar n] else decimalNat n

/-- The hour on the 12-hour clock, `1..12`. -/
def hour12 (h : Nat) : Nat := if h % 12 = 0 then 12 else h % 12

/-- Expansion of a `strftime` format string with the conversions the program
uses, `%H`, `%I` and `%M`; every other character is copied. -/
def strftime_expand : List Char → Tm → List Char
  | [], _ => []
  | '%' :: 'H' :: rest, tm => pad2 tm.tm_hour ++ strftime_expand rest tm
  | '%' :: 'I' :: rest, tm => pad2 (hour12 tm.tm_hour) ++ strftime_expand rest tm
  | '%' :: 'M' :: rest, tm => pad2 tm.tm_min ++ strftime_expand rest tm
  | c :: rest, tm => c :: strftime_expand rest tm

/-- C `strftime` into a buffer of `maxsize` bytes: the expansion when it fits
with its terminating NUL, nothing otherwise. -/
def strftime (maxsize : Nat) (fmt : List Char) (tm : Tm) : Option (List Char) :=
  let r := strftime_expand fmt tm
  if r.length + 1 ≤ maxsize then some r else none

/-! ## Time display -/

/-- The text a layer shows: the contents of what it points at. -/
def text_layer_get_text (s : App) (l : TextLayer) : List Char :=
  match l.text with
  | TextSource.null => []
  | TextSource.literal t => t
  | TextSource.s_buffer => s.s_buffer
  | TextSource.weather_layer_buffer => s.weather_layer_buffer

/-- Source lines 98-109.  `tick_time` is the local time read from the host
clock and `clock_is_24h_style` the preference of the host. -/
def update_time (tick_time : Tm) (clock_is_24h_style : Bool) (s : App) : App :=
  let fmt : List Char := if clock_is_24h_style then "%H:%M".toList else "%I:%M".toList
  let s1 : App :=
    match strftime 8 fmt tick_time with
    | some r => { s with s_buffer := r }
    | none => s
  { s1 with s_time_layer := { s1.s_time_layer with text := TextSource.s_buffer } }

/-! ## Weather exchange -/

/-- SDK `app_message_outbox_begin`: a fresh, empty outbound dictionary. -/
def app_message_outbox_begin (s : App) : App := { s with outbox_iter := [] }

/-- SDK `dict_write_uint8`: one more tuple in the outbound dictionary. -/
def dict_write_uint8 (key value : Nat) (s : App) : App :=
  { s with outbox_iter := s.outbox_iter ++ [{ key := key, uint8 := value % 256 }] }

/-- SDK `app_message_outbox_send`: the outbound dictionary leaves as one
message. -/
def app_message_outbox_send (s : App) : App :=
  { s with outbox_sent := s.outbox_sent ++ [s.outbox_iter], outbox_iter := [] }

/-- Source lines 111-116. -/
def update_weather (s : App) : App :=
  app_message_outbox_send (dict_write_uint8 0 0 (app_message_outbox_begin s))

/-- Source lines 149-156.  `tick_time` is the time the host passes to the
handler, `now` the time `update_time` reads for itself. -/
def tick_handler (tick_time now : Tm) (clock_is_24h_style : Bool) (s : App) : App :=
  let s1 := update_time now clock_is_24h_style s
  if tick_time.tm_min % 30 = 0 then update_weather s1 else s1

/-- The value union of an inbound tuple, as read through its `int32` member
and through its `cstring` member. -/
structure TupleValue where
  int32 : Int
  cstring : List Char
deriving DecidableEq, Repr

structure Tuple where
  key : Nat
  value : TupleValue
deriving DecidableEq, Repr

/-- SDK `dict_find`: the first tuple of the message with the given key. -/
def dict_find (iterator : List Tuple) (key : Nat) : Option Tuple :=
  iterator.find? (fun t => t.key == key)

/-- Source lines 158-177.  The two message keys are generated by the build from
the package description; they are parameters here. -/
def inbox_received_callback (MESSAGE_KEY_Temperature MESSAGE_KEY_Conditions : Nat)
    (iterator : List Tuple) (s : App) : App :=
  match dict_find iterator MESSAGE_KEY_Temperature,
      dict_find iterator MESSAGE_KEY_Conditions with
  | some temp_tuple, some conditions_tuple =>
    let s1 : App :=
      { s with temperature_buffer :=
          snprintf 8 "%dC".toList [FormatArg.int temp_tuple.value.int32] }
    let s2 : App :=
      { s1 with conditions_buffer :=
          snprintf 32 "%s".toList [FormatArg.str conditions_tuple.value.cstring] }
    let s3 : App :=
      { s2 with weather_layer_buffer :=
          snprintf 32 "%s, %s".toList [FormatArg.str s2.temperature_buffer,
            FormatArg.str s2.conditions_buffer] }
    { s3 with s_weather_layer :=
        { s3.s_weather_layer with text := TextSource.weather_layer_buffer } }
  | _, _ => s

/-- A state to evaluate the callbacks on: the layers of a 144 x 168 display
right after `initialise_ui`, empty buffers, nothing sent. -/
def sampleApp : App :=
  let bounds : GRect := { origin := { x := 0, y := 0 }, size := { w := 144, h := 168 } }
  initialise_ui bounds bounds
    { s_background_layer := bitmap_layer_create bounds
      s_time_layer := text_layer_create bounds
      s_weather_layer := text_layer_create bounds
      s_time_font := GFont.system_default
      s_weather_font := GFont.system_default
      window_children := []
      s_buffer := []
      temperature_buffer := []
      conditions_buffer := []
      weather_layer_buffer := []
      outbox_iter := []
      outbox_sent := [] }

/-- An inbound message with temperature 21 and conditions "Cloudy", under the
keys 0 and 1. -/
def cloudyMessage : List Tuple :=
  [{ key := 0, value := { int32 := 21, cstring := [] } },
   { key := 1, value := { int32 := 0, cstring := "Cloudy".toList } }]

/-- An inbound message with a seven-digit temperature. -/
def sevenDigitMessage : List Tuple :=
  [{ key := 0, value := { int32 := 1000000, cstring := [] } },
   { key := 1, value := { int32 := 0, cstring := "Cloudy".toList } }]

/-- An inbound message whose conditions text is 31 bytes long. -/
def longConditionsMessage : List Tuple :=
  [{ key := 0, value := { int32 := 21, cstring := [] } },
   { key := 1, value := { int32 := 0, cstring := "Thunderstorm with heavy drizzle".toList } }]

/-- An inbound message with a temperature and no conditions. -/
def temperatureOnlyMessage : List Tuple :=
  [{ key := 0, value := { int32 := 21, cstring := [] } }]

/-- The full bounds of a 144 x 168 display. -/
def fullScreen : GRect := { origin := { x := 0, y := 0 }, size := { w := 144, h := 168 } }

/-- The same display with the lowest 51 rows covered. -/
def coveredScreen : GRect := { origin := { x := 0, y := 0 }, size := { w := 144, h := 117 } }

/-- Bounds taller than 255 pixels. -/
def tallScreen : GRect := { origin := { x := 0, y := 0 }, size := { w := 200, h := 300 } }

/-! ## Lemmas -/

theorem toUint8_of_range (x : Int) (h0 : 0 ≤ x) (h1 : x ≤ 255) : toUint8 x = x := by
  unfold toUint8
  omega

theorem toUint8_range (x : Int) : 0 ≤ toUint8 x ∧ toUint8 x ≤ 255 := by
  unfold toUint8
  omega

theorem relative_pixel_of_bytes (p m : Int) (hp0 : 0 ≤ p) (hp : p ≤ 100)
    (hm0 : 0 ≤ m) (hm : m ≤ 255) :
    relative_pixel p m = m * p / 100 ∧ m * p / 100 ≤ 255 := by
  have hq0 : 0 ≤ m * p := mul_nonneg hm0 hp0
  have hq1 : m * p ≤ 255 * 100 := by nlinarith
  unfold relative_pixel
  rw [toUint8_of_range m hm0 hm, toUint8_of_range p hp0 (by omega)]
  generalize m * p = q at hq0 hq1
  unfold toUint8
  omega

theorem grect_equal_iff (a b : GRect) : grect_equal a b = true ↔ a = b := by
  obtain ⟨⟨ax, ay⟩, ⟨aw, ah⟩⟩ := a
  obtain ⟨⟨bx, byy⟩, ⟨bw, bh⟩⟩ := b
  simp [grect_equal, and_assoc]

theorem update_ui_hidden (full_bounds unobstructed_bounds : GRect) (s : App) :
    (update_ui full_bounds unobstructed_bounds s).s_background_layer.hidden
      = !grect_equal full_bounds unobstructed_bounds := by
  unfold update_ui
  cases grect_equal full_bounds unobstructed_bounds <;> rfl

theorem update_ui_text_color (full_bounds unobstructed_bounds : GRect) (s : App) :
    (update_ui full_bounds unobstructed_bounds s).s_time_layer.text_color
      = if grect_equal full_bounds unobstructed_bounds then GColor.GColorBlack
        else GColor.GColorWhite := by
  unfold update_ui
  cases grect_equal full_bounds unobstructed_bounds <;> rfl

theorem decimalDigits_length (fuel : Nat) :
    ∀ n k : Nat, 0 < k → n < 10 ^ k → (decimalDigits fuel n).length ≤ k := by
  induction fuel with
  | zero => intro n k _ _; simp [decimalDigits]
  | succ f ih =>
    intro n k hk hn
    unfold decimalDigits
    split
    · simpa using hk
    · rename_i h10
      obtain ⟨j, rfl⟩ : ∃ j, k = j + 1 := ⟨k - 1, by omega⟩
      have hj : 0 < j := by
        rcases Nat.eq_zero_or_pos j with h | h
        · subst h; simp at hn; omega
        · exact h
      have hdiv : n / 10 < 10 ^ j := by
        rw [pow_succ] at hn
        omega
      have := ih (n / 10) j hj hdiv
      simp only [List.length_append, List.length_singleton]
      omega

theorem toDigitsCore_eq_decimalDigits (fuel : Nat) :
    ∀ (n : Nat) (acc : List Char), n < fuel →
      Nat.toDigitsCore 10 fuel n acc = decimalDigits fuel n ++ acc := by
  induction fuel with
  | zero => intro n acc h; omega
  | succ f ih =>
    intro n acc h
    unfold Nat.toDigitsCore decimalDigits
    by_cases h10 : n < 10
    · have hd : n / 10 = 0 := by omega
      have hm : n % 10 = n := by omega
      simp [h10, hd, hm]
    · have hd : ¬ n / 10 = 0 := by omega
      simp only [hd, h10, if_false]
      rw [ih (n / 10) _ (by omega)]
      simp

/-- The digits `decimalNat` gives are those of the standard rendering of a
natural number. -/
theorem decimalNat_eq_repr (n : Nat) : decimalNat n = (Nat.repr n).data := by
  simp only [decimalNat, Nat.repr, Nat.toDigits, toDigitsCore_eq_decimalDigits (n + 1) n []
    (Nat.lt_succ_self n), List.append_nil]
  rfl

/-- The characters `decimal` gives are those of the standard rendering of an
integer. -/
theorem decimal_eq_repr (i : Int) : decimal i = (toString i).data := by
  cases i with
  | ofNat m =>
    have h : ¬ ((m : Int) < 0) := by omega
    simp only [Int.ofNat_eq_coe, decimal, h, if_false, Int.toNat_ofNat, decimalNat_eq_repr]
    rfl
  | negSucc m =>
    have h : Int.negSucc m < 0 := Int.negSucc_lt_zero m
    have e : (-Int.negSucc m).toNat = m + 1 := by
      rw [Int.neg_negSucc]
      rfl
    simp only [decimal, h, if_true, e, decimalNat_eq_repr]
    rfl

theorem decimal_length_le_six (t : Int) (h0 : -99999 ≤ t) (h1 : t ≤ 999999) :
    (decimal t).length ≤ 6 := by
  unfold decimal
  split
  · have hn : (-t).toNat < 10 ^ 5 := by omega
    have := decimalDigits_length ((-t).toNat + 1) (-t).toNat 5 (by omega) hn
    simp only [List.length_cons, decimalNat]
    omega
  · have hn : t.toNat < 10 ^ 6 := by omega
    exact decimalDigits_length (t.toNat + 1) t.toNat 6 (by omega) hn

theorem pad2_two_digits (n : Nat) (h : n < 100) :
    pad2 n = [Nat.digitChar (n / 10), Nat.digitChar (n % 10)] := by
  interval_cases n <;> rfl

theorem hour12_cases (h : Nat) (hh : h < 24) :
    hour12 h = if h = 0 then 12 else if h ≤ 12 then h else h - 12 := by
  unfold hour12
  split_ifs <;> omega

theorem printf_expand_temperature (t : Int) :
    printf_expand "%dC".toList [FormatArg.int t] = decimal t ++ ['C'] := by
  simp [printf_expand]

theorem printf_expand_conditions (c : List Char) :
    printf_expand "%s".toList [FormatArg.str c] = c := by
  simp [printf_expand]

theorem printf_expand_weather (a b : List Char) :
    printf_expand "%s, %s".toList [FormatArg.str a, FormatArg.str b] = a ++ [',', ' '] ++ b := by
  simp [printf_expand]

theorem strftime_expand_24h (tm : Tm) :
    strftime_expand "%H:%M".toList tm = pad2 tm.tm_hour ++ [':'] ++ pad2 tm.tm_min := by
  simp [strftime_expand]

theorem strftime_expand_12h (tm : Tm) :
    strftime_expand "%I:%M".toList tm
      = pad2 (hour12 tm.tm_hour) ++ [':'] ++ pad2 tm.tm_min := by
  simp [strftime_expand]

theorem inbox_received_callback_text (kT kC : Nat) (msg : List Tuple) (s : App)
    (tt ct : Tuple) (hT : dict_find msg kT = some tt) (hC : dict_find msg kC = some ct) :
    text_layer_get_text (inbox_received_callback kT kC msg s)
        (inbox_received_callback kT kC msg s).s_weather_layer
      = (((decimal tt.value.int32 ++ ['C']).take 7) ++ [',', ' ']
          ++ (ct.value.cstring.take 31)).take 31 := by
  simp only [inbox_received_callback, hT, hC, text_layer_get_text, snprintf,
    printf_expand_temperature, printf_expand_conditions, printf_expand_weather]

theorem update_time_text (tm : Tm) (b : Bool) (s : App) (r : List Char)
    (h : strftime 8 (if b then "%H:%M".toList else "%I:%M".toList) tm = some r) :
    text_layer_get_text (update_time tm b s) (update_time tm b s).s_time_layer = r := by
  simp only [update_time, h, text_layer_get_text]

theorem update_time_outbox_sent (tm : Tm) (b : Bool) (a : App) :
    (update_time tm b a).outbox_sent = a.outbox_sent := by
  unfold update_time
  dsimp only
  cases strftime 8 (if b = true then "%H:%M".toList else "%I:%M".toList) tm <;> rfl

theorem relative_pixel_zero (h : Int) : relative_pixel 0 h = 0 := by
  simp [relative_pixel, toUint8]

theorem update_ui_time_y (full_bounds unobstructed_bounds : GRect) (s : App) :
    (update_ui full_bounds unobstructed_bounds s).s_time_layer.frame.origin.y
      = relative_pixel 31 unobstructed_bounds.size.h := by
  unfold update_ui
  cases grect_equal full_bounds unobstructed_bounds <;> rfl

theorem update_ui_weather_y (full_bounds unobstructed_bounds : GRect) (s : App) :
    (update_ui full_bounds unobstructed_bounds s).s_weather_layer.frame.origin.y
      = relative_pixel 76 unobstructed_bounds.size.h := by
  unfold update_ui
  cases grect_equal full_bounds unobstructed_bounds <;> rfl

/-! ## The layout function -/

/-- C1, as stated, fails: percent 100 and extent 256 are in the stated ranges,
yet the 8-bit parameter reduces the extent to 0 and the call returns 0, not
`floor (256 * 100 / 100) = 256`. -/
theorem C1_counterexample :
    (0 : Int) ≤ 100 ∧ (100 : Int) ≤ 100 ∧ (0 : Int) ≤ 256 ∧ (256 : Int) ≤ 32767 ∧
      relative_pixel 100 256 = 0 ∧ relative_pixel 100 256 ≠ 256 * 100 / 100 := by
  decide

/-- C1, amended: for every percent in `0..100` and every extent in `0..255`,
`relative_pixel percent extent` is exactly `floor (extent * percent / 100)`, a
value of at most 255, so the 8-bit return type does not wrap; in particular
`relative_pixel 31 200 = 62` and `relative_pixel 76 168 = 127`. -/
theorem C1_relative_pixel_floor (percent extent : Int)
    (hp0 : 0 ≤ percent) (hp : percent ≤ 100) (he0 : 0 ≤ extent) (he : extent ≤ 255) :
    relative_pixel percent extent = extent * percent / 100 ∧
      extent * percent / 100 ≤ 255 ∧
      relative_pixel 31 200 = 62 ∧ relative_pixel 76 168 = 127 := by
  obtain ⟨h1, h2⟩ := relative_pixel_of_bytes percent extent hp0 hp he0 he
  exact ⟨h1, h2, by decide, by decide⟩

theorem C1_relative_pixel_floor_witness :
    relative_pixel 31 228 = 228 * 31 / 100 ∧ (228 : Int) * 31 / 100 ≤ 255 ∧
      relative_pixel 31 200 = 62 ∧ relative_pixel 76 168 = 127 :=
  C1_relative_pixel_floor 31 228 (by decide) (by decide) (by decide) (by decide)

/-- C7: for every extent `h` and all percents `p1 ≤ p2` within `0..100`,
`relative_pixel p1 h ≤ relative_pixel p2 h`. -/
theorem C7_relative_pixel_monotone (h p1 p2 : Int)
    (h0 : 0 ≤ p1) (h12 : p1 ≤ p2) (h2 : p2 ≤ 100) :
    relative_pixel p1 h ≤ relative_pixel p2 h := by
  obtain ⟨ha0, ha1⟩ := toUint8_range h
  have e1 : relative_pixel p1 h = relative_pixel p1 (toUint8 h) := by
    simp [relative_pixel, toUint8]
  have e2 : relative_pixel p2 h = relative_pixel p2 (toUint8 h) := by
    simp [relative_pixel, toUint8]
  rw [e1, e2, (relative_pixel_of_bytes p1 (toUint8 h) h0 (by omega) ha0 ha1).1,
    (relative_pixel_of_bytes p2 (toUint8 h) (by omega) h2 ha0 ha1).1]
  have hmul : toUint8 h * p1 ≤ toUint8 h * p2 := mul_le_mul_of_nonneg_left h12 ha0
  exact Int.ediv_le_ediv (by decide) hmul

theorem C7_relative_pixel_monotone_witness :
    relative_pixel 31 168 ≤ relative_pixel 76 168 :=
  C7_relative_pixel_monotone 168 31 76 (by decide) (by decide) (by decide)

/-- C8, as stated, fails: extent 300 is a non-negative integer, yet
`relative_pixel 100 300` is 44, not 300. -/
theorem C8_counterexample :
    (0 : Int) ≤ 300 ∧ relative_pixel 100 300 = 44 ∧ relative_pixel 100 300 ≠ 300 := by
  decide

/-- C8, amended: `relative_pixel 0 h = 0` for every integer extent `h`, and
`relative_pixel 100 k = k` for every extent `k` in `0..255`. -/
theorem C8_relative_pixel_endpoints (h k : Int) (hk0 : 0 ≤ k) (hk1 : k ≤ 255) :
    relative_pixel 0 h = 0 ∧ relative_pixel 100 k = k := by
  refine ⟨relative_pixel_zero h, ?_⟩
  rw [(relative_pixel_of_bytes 100 k (by decide) (by decide) hk0 hk1).1]
  omega

theorem C8_relative_pixel_endpoints_witness :
    relative_pixel 0 300 = 0 ∧ relative_pixel 100 168 = 168 :=
  C8_relative_pixel_endpoints 300 168 (by decide) (by decide)

/-! ## The reaction to an obstruction -/

/-- C5: after `update_ui` the background is hidden and the time text is white
exactly when the unobstructed bounds differ from the full bounds, and the
background is visible and the time text black exactly when they are equal;
black is the colour `initialise_ui` gives the time text when it creates it. -/
theorem C5_update_ui_visibility (full_bounds unobstructed_bounds : GRect) (s : App) :
    (((update_ui full_bounds unobstructed_bounds s).s_background_layer.hidden = true ∧
        (update_ui full_bounds unobstructed_bounds s).s_time_layer.text_color
          = GColor.GColorWhite) ↔ unobstructed_bounds ≠ full_bounds) ∧
      (((update_ui full_bounds unobstructed_bounds s).s_background_layer.hidden = false ∧
        (update_ui full_bounds unobstructed_bounds s).s_time_layer.text_color
          = (initialise_ui_layers full_bounds s).s_time_layer.text_color) ↔
          unobstructed_bounds = full_bounds) ∧
      (initialise_ui_layers full_bounds s).s_time_layer.text_color = GColor.GColorBlack := by
  have hinit : (initialise_ui_layers full_bounds s).s_time_layer.text_color
      = GColor.GColorBlack := rfl
  rw [hinit, update_ui_hidden, update_ui_text_color]
  by_cases h : unobstructed_bounds = full_bounds
  · have hg : grect_equal full_bounds unobstructed_bounds = true :=
      (grect_equal_iff _ _).2 h.symm
    rw [hg]
    simp [h]
  · have hg : grect_equal full_bounds unobstructed_bounds = false := by
      rw [Bool.eq_false_iff]
      intro hc
      exact h ((grect_equal_iff _ _).1 hc).symm
    rw [hg]
    simp [h]

/-- C6, as stated, fails: with an unobstructed height of 300 `update_ui` puts
the time region at 13 and the weather region at 33, while
`floor (300 * 31 / 100) = 93` and `floor (300 * 76 / 100) = 228`. -/
theorem C6_counterexample :
    (0 : Int) ≤ tallScreen.size.h ∧
      (update_ui fullScreen tallScreen sampleApp).s_time_layer.frame.origin.y = 13 ∧
      (update_ui fullScreen tallScreen sampleApp).s_time_layer.frame.origin.y
        ≠ tallScreen.size.h * 31 / 100 ∧
      (update_ui fullScreen tallScreen sampleApp).s_weather_layer.frame.origin.y = 33 ∧
      (update_ui fullScreen tallScreen sampleApp).s_weather_layer.frame.origin.y
        ≠ tallScreen.size.h * 76 / 100 := by
  decide

/-- C6, amended: for every unobstructed height `h` in `0..255`, after
`update_ui` the vertical origin of the time region is `floor (h * 31 / 100)`
and that of the weather region is `floor (h * 76 / 100)`, whatever the full
bounds are; and for all bounds, of any height, the horizontal origin, width
and height of both regions are what they were before the call. -/
theorem C6_update_ui_frames (full_bounds unobstructed_bounds any_bounds : GRect) (s : App)
    (h0 : 0 ≤ unobstructed_bounds.size.h) (h1 : unobstructed_bounds.size.h ≤ 255) :
    (update_ui full_bounds unobstructed_bounds s).s_time_layer.frame.origin.y
        = unobstructed_bounds.size.h * 31 / 100 ∧
      (update_ui full_bounds unobstructed_bounds s).s_weather_layer.frame.origin.y
        = unobstructed_bounds.size.h * 76 / 100 ∧
      (update_ui full_bounds any_bounds s).s_time_layer.frame.origin.x
        = s.s_time_layer.frame.origin.x ∧
      (update_ui full_bounds any_bounds s).s_time_layer.frame.size
        = s.s_time_layer.frame.size ∧
      (update_ui full_bounds any_bounds s).s_weather_layer.frame.origin.x
        = s.s_weather_layer.frame.origin.x ∧
      (update_ui full_bounds any_bounds s).s_weather_layer.frame.size
        = s.s_weather_layer.frame.size := by
  refine ⟨?_, ?_, ?_, ?_, ?_, ?_⟩
  · rw [update_ui_time_y]
    exact (relative_pixel_of_bytes 31 _ (by decide) (by decide) h0 h1).1
  · rw [update_ui_weather_y]
    exact (relative_pixel_of_bytes 76 _ (by decide) (by decide) h0 h1).1
  all_goals
    unfold update_ui
    cases grect_equal full_bounds any_bounds <;> rfl

theorem C6_update_ui_frames_witness :
    (update_ui fullScreen coveredScreen sampleApp).s_time_layer.frame.origin.y
        = coveredScreen.size.h * 31 / 100 ∧
      (update_ui fullScreen coveredScreen sampleApp).s_weather_layer.frame.origin.y
        = coveredScreen.size.h * 76 / 100 ∧
      (update_ui fullScreen tallScreen sampleApp).s_time_layer.frame.origin.x
        = sampleApp.s_time_layer.frame.origin.x ∧
      (update_ui fullScreen tallScreen sampleApp).s_time_layer.frame.size
        = sampleApp.s_time_layer.frame.size ∧
      (update_ui fullScreen tallScreen sampleApp).s_weather_layer.frame.origin.x
        = sampleApp.s_weather_layer.frame.origin.x ∧
      (update_ui fullScreen tallScreen sampleApp).s_weather_layer.frame.size
        = sampleApp.s_weather_layer.frame.size :=
  C6_update_ui_frames fullScreen coveredScreen tallScreen sampleApp (by decide) (by decide)

/-- C10: `update_ui` applied twice gives the state `update_ui` applied once
gives; the background visibility, the time text colour and the vertical
origins of the time and weather regions after `update_ui` are the same from
any two states; and `initialise_ui` ends with those same four values. -/
theorem C10_update_ui_idempotent (full_bounds unobstructed_bounds : GRect) (s t : App) :
    update_ui full_bounds unobstructed_bounds (update_ui full_bounds unobstructed_bounds s)
        = update_ui full_bounds unobstructed_bounds s ∧
      ((update_ui full_bounds unobstructed_bounds s).s_background_layer.hidden
          = (update_ui full_bounds unobstructed_bounds t).s_background_layer.hidden ∧
        (update_ui full_bounds unobstructed_bounds s).s_time_layer.text_color
          = (update_ui full_bounds unobstructed_bounds t).s_time_layer.text_color ∧
        (update_ui full_bounds unobstructed_bounds s).s_time_layer.frame.origin.y
          = (update_ui full_bounds unobstructed_bounds t).s_time_layer.frame.origin.y ∧
        (update_ui full_bounds unobstructed_bounds s).s_weather_layer.frame.origin.y
          = (update_ui full_bounds unobstructed_bounds t).s_weather_layer.frame.origin.y) ∧
      ((initialise_ui full_bounds unobstructed_bounds s).s_background_layer.hidden
          = (update_ui full_bounds unobstructed_bounds t).s_background_layer.hidden ∧
        (initialise_ui full_bounds unobstructed_bounds s).s_time_layer.text_color
          = (update_ui full_bounds unobstructed_bounds t).s_time_layer.text_color ∧
        (initialise_ui full_bounds unobstructed_bounds s).s_time_layer.frame.origin.y
          = (update_ui full_bounds unobstructed_bounds t).s_time_layer.frame.origin.y ∧
        (initialise_ui full_bounds unobstructed_bounds s).s_weather_layer.frame.origin.y
          = (update_ui full_bounds unobstructed_bounds t).s_weather_layer.frame.origin.y) ∧
      app_unobstructed_change full_bounds unobstructed_bounds s
        = update_ui full_bounds unobstructed_bounds s := by
  refine ⟨?_, ⟨?_, ?_, ?_, ?_⟩, ⟨?_, ?_, ?_, ?_⟩, rfl⟩ <;>
    (try unfold initialise_ui
     unfold update_ui
     cases grect_equal full_bounds unobstructed_bounds <;> rfl)

/-! ## The time display -/

/-- C9: for every local time with hour `H` in `0..23` and minute `M` in
`0..59`, `strftime` succeeds in the 8-byte buffer and the time layer shows the
five characters `hh:MM`, each field on two digits, where `hh` is `H` in 24-hour
mode and the 12-hour clock hour (`1..12`) in 12-hour mode; 13:05 gives "13:05"
in 24-hour mode and "01:05" in 12-hour mode. -/
theorem C9_update_time_text (H M hh : Nat) (clock_is_24h_style : Bool) (s : App)
    (hH : H < 24) (hM : M < 60)
    (hhh : hh = if clock_is_24h_style then H
      else if H = 0 then 12 else if H ≤ 12 then H else H - 12) :
    text_layer_get_text (update_time ⟨H, M⟩ clock_is_24h_style s)
        (update_time ⟨H, M⟩ clock_is_24h_style s).s_time_layer
        = [Nat.digitChar (hh / 10), Nat.digitChar (hh % 10), ':',
            Nat.digitChar (M / 10), Nat.digitChar (M % 10)] ∧
      strftime 8 (if clock_is_24h_style then "%H:%M".toList else "%I:%M".toList) ⟨H, M⟩
        = some [Nat.digitChar (hh / 10), Nat.digitChar (hh % 10), ':',
            Nat.digitChar (M / 10), Nat.digitChar (M % 10)] ∧
      (clock_is_24h_style = false → 1 ≤ hh ∧ hh ≤ 12) ∧
      text_layer_get_text (update_time ⟨13, 5⟩ true s) (update_time ⟨13, 5⟩ true s).s_time_layer
        = "13:05".toList ∧
      text_layer_get_text (update_time ⟨13, 5⟩ false s) (update_time ⟨13, 5⟩ false s).s_time_layer
        = "01:05".toList := by
  have key : strftime 8 (if clock_is_24h_style then "%H:%M".toList else "%I:%M".toList)
      ⟨H, M⟩ = some [Nat.digitChar (hh / 10), Nat.digitChar (hh % 10), ':',
        Nat.digitChar (M / 10), Nat.digitChar (M % 10)] := by
    cases clock_is_24h_style
    · have h12 : hour12 H = hh := by rw [hhh, hour12_cases H hH]; simp
      have hlt : hh < 100 := by
        rw [hhh]
        simp only [Bool.false_eq_true, if_false]
        split_ifs <;> omega
      show strftime 8 "%I:%M".toList ⟨H, M⟩ = _
      unfold strftime
      rw [strftime_expand_12h]
      simp [h12, pad2_two_digits hh hlt, pad2_two_digits M (by omega)]
    · have h24 : H = hh := by rw [hhh]; simp
      subst h24
      show strftime 8 "%H:%M".toList ⟨H, M⟩ = _
      unfold strftime
      rw [strftime_expand_24h]
      simp [pad2_two_digits H (by omega), pad2_two_digits M (by omega)]
  refine ⟨update_time_text _ _ s _ key, key, ?_, ?_, ?_⟩
  · intro hb
    rw [hhh, hb]
    simp only [Bool.false_eq_true, if_false]
    split_ifs <;> omega
  · exact update_time_text _ _ s _ (by decide)
  · exact update_time_text _ _ s _ (by decide)

theorem C9_update_time_text_witness :
    text_layer_get_text (update_time ⟨23, 59⟩ false sampleApp)
        (update_time ⟨23, 59⟩ false sampleApp).s_time_layer
        = [Nat.digitChar (11 / 10), Nat.digitChar (11 % 10), ':',
            Nat.digitChar (59 / 10), Nat.digitChar (59 % 10)] ∧
      strftime 8 (if false then "%H:%M".toList else "%I:%M".toList) ⟨23, 59⟩
        = some [Nat.digitChar (11 / 10), Nat.digitChar (11 % 10), ':',
            Nat.digitChar (59 / 10), Nat.digitChar (59 % 10)] ∧
      (false = false → 1 ≤ 11 ∧ 11 ≤ 12) ∧
      text_layer_get_text (update_time ⟨13, 5⟩ true sampleApp)
        (update_time ⟨13, 5⟩ true sampleApp).s_time_layer = "13:05".toList ∧
      text_layer_get_text (update_time ⟨13, 5⟩ false sampleApp)
        (update_time ⟨13, 5⟩ false sampleApp).s_time_layer = "01:05".toList :=
  C9_update_time_text 23 59 11 false sampleApp (by decide) (by decide) (by decide)

/-! ## The weather exchange -/

/-- C4: `tick_handler` adds to the messages sent exactly one message, whose
only tuple is key 0 with value 0, when the minute of the tick is a multiple of
30, and adds none otherwise; a tick at minute 30 sends one request and a tick
at minute 31 sends none. -/
theorem C4_tick_handler_outbox (hour m : Nat) (now : Tm) (clock_is_24h_style : Bool)
    (s : App) :
    (tick_handler ⟨hour, m⟩ now clock_is_24h_style s).outbox_sent
        = s.outbox_sent ++ (if 30 ∣ m then [[{ key := 0, uint8 := 0 }]] else []) ∧
      (tick_handler ⟨hour, 30⟩ now clock_is_24h_style s).outbox_sent
        = s.outbox_sent ++ [[{ key := 0, uint8 := 0 }]] ∧
      (tick_handler ⟨hour, 31⟩ now clock_is_24h_style s).outbox_sent = s.outbox_sent := by
  have hut : ∀ a : App, (update_time now clock_is_24h_style a).outbox_sent
      = a.outbox_sent := update_time_outbox_sent now clock_is_24h_style
  have main : ∀ k : Nat, (tick_handler ⟨hour, k⟩ now clock_is_24h_style s).outbox_sent
      = s.outbox_sent ++ (if 30 ∣ k then [[{ key := 0, uint8 := 0 }]] else []) := by
    intro k
    unfold tick_handler
    by_cases h : k % 30 = 0
    · have hd : 30 ∣ k := Nat.dvd_of_mod_eq_zero h
      simp [h, hd, update_weather, app_message_outbox_send, dict_write_uint8,
        app_message_outbox_begin, hut]
    · have hd : ¬ 30 ∣ k := fun hc => h (Nat.mod_eq_zero_of_dvd hc)
      simp [h, hd, hut]
  refine ⟨main m, ?_, ?_⟩
  · have h30 := main 30
    rwa [if_pos (by decide)] at h30
  · have h31 := main 31
    rwa [if_neg (by decide), List.append_nil] at h31

/-- C2, as stated, fails twice.  With temperature 1000000 and conditions
"Cloudy" the 8-byte temperature buffer drops the `C`, and the display reads
"1000000, Cloudy".  With temperature 21 and a conditions text of 31 bytes the
32-byte display buffer drops the last five bytes of the text. -/
theorem C2_counterexample :
    (dict_find sevenDigitMessage 0 = some ⟨0, ⟨1000000, []⟩⟩ ∧
      dict_find sevenDigitMessage 1 = some ⟨1, ⟨0, "Cloudy".toList⟩⟩ ∧
      (-2147483648 : Int) ≤ 1000000 ∧ (1000000 : Int) ≤ 2147483647 ∧
      "Cloudy".toList.length ≤ 31 ∧
      text_layer_get_text (inbox_received_callback 0 1 sevenDigitMessage sampleApp)
        (inbox_received_callback 0 1 sevenDigitMessage sampleApp).s_weather_layer
        = "1000000, Cloudy".toList ∧
      text_layer_get_text (inbox_received_callback 0 1 sevenDigitMessage sampleApp)
        (inbox_received_callback 0 1 sevenDigitMessage sampleApp).s_weather_layer
        ≠ decimal 1000000 ++ "C, ".toList ++ "Cloudy".toList) ∧
    (dict_find longConditionsMessage 0 = some ⟨0, ⟨21, []⟩⟩ ∧
      dict_find longConditionsMessage 1
        = some ⟨1, ⟨0, "Thunderstorm with heavy drizzle".toList⟩⟩ ∧
      "Thunderstorm with heavy drizzle".toList.length ≤ 31 ∧
      text_layer_get_text (inbox_received_callback 0 1 longConditionsMessage sampleApp)
        (inbox_received_callback 0 1 longConditionsMessage sampleApp).s_weather_layer
        = "21C, Thunderstorm with heavy dr".toList ∧
      text_layer_get_text (inbox_received_callback 0 1 longConditionsMessage sampleApp)
        (inbox_received_callback 0 1 longConditionsMessage sampleApp).s_weather_layer
        ≠ decimal 21 ++ "C, ".toList ++ "Thunderstorm with heavy drizzle".toList) := by
  decide

/-- C2, amended: for every inbound message that contains a temperature `t`
with `-99999 ≤ t ≤ 999999` and conditions `c` such that the decimal rendering
of `t`, the three characters `C, ` and `c` together are at most 31 bytes,
`inbox_received_callback` makes the weather layer show exactly the decimal
rendering of `t`, then `C, `, then `c`; for 21 and "Cloudy" it shows
"21C, Cloudy". -/
theorem C2_inbox_received_text (MESSAGE_KEY_Temperature MESSAGE_KEY_Conditions : Nat)
    (iterator : List Tuple) (s : App) (temp_tuple conditions_tuple : Tuple)
    (hT : dict_find iterator MESSAGE_KEY_Temperature = some temp_tuple)
    (hC : dict_find iterator MESSAGE_KEY_Conditions = some conditions_tuple)
    (ht0 : -99999 ≤ temp_tuple.value.int32) (ht1 : temp_tuple.value.int32 ≤ 999999)
    (hlen : (decimal temp_tuple.value.int32).length + 3
      + conditions_tuple.value.cstring.length ≤ 31) :
    text_layer_get_text
        (inbox_received_callback MESSAGE_KEY_Temperature MESSAGE_KEY_Conditions iterator s)
        (inbox_received_callback MESSAGE_KEY_Temperature MESSAGE_KEY_Conditions iterator
          s).s_weather_layer
        = decimal temp_tuple.value.int32 ++ "C, ".toList ++ conditions_tuple.value.cstring ∧
      text_layer_get_text (inbox_received_callback 0 1 cloudyMessage s)
        (inbox_received_callback 0 1 cloudyMessage s).s_weather_layer
        = "21C, Cloudy".toList := by
  have h6 := decimal_length_le_six temp_tuple.value.int32 ht0 ht1
  refine ⟨?_, ?_⟩
  · rw [inbox_received_callback_text _ _ _ _ _ _ hT hC]
    rw [List.take_of_length_le (by simp; omega),
      List.take_of_length_le (l := conditions_tuple.value.cstring) (by omega),
      List.take_of_length_le (by simp; omega)]
    simp
  · rw [inbox_received_callback_text 0 1 cloudyMessage s ⟨0, ⟨21, []⟩⟩
      ⟨1, ⟨0, "Cloudy".toList⟩⟩ (by decide) (by decide)]
    decide

theorem C2_inbox_received_text_witness :
    text_layer_get_text (inbox_received_callback 0 1 cloudyMessage sampleApp)
        (inbox_received_callback 0 1 cloudyMessage sampleApp).s_weather_layer
        = decimal 21 ++ "C, ".toList ++ "Cloudy".toList ∧
      text_layer_get_text (inbox_received_callback 0 1 cloudyMessage sampleApp)
        (inbox_received_callback 0 1 cloudyMessage sampleApp).s_weather_layer
        = "21C, Cloudy".toList :=
  C2_inbox_received_text 0 1 cloudyMessage sampleApp ⟨0, ⟨21, []⟩⟩ ⟨1, ⟨0, "Cloudy".toList⟩⟩
    (by decide) (by decide) (by decide) (by decide) (by decide)

/-- C3: when the temperature field, the conditions field or both are absent
from the inbound message, `inbox_received_callback` returns the state it was
given: the weather layer shows the same text and the buffer behind it holds
the same bytes. -/
theorem C3_inbox_received_missing (MESSAGE_KEY_Temperature MESSAGE_KEY_Conditions : Nat)
    (iterator : List Tuple) (s : App)
    (h : dict_find iterator MESSAGE_KEY_Temperature = none ∨
      dict_find iterator MESSAGE_KEY_Conditions = none) :
    inbox_received_callback MESSAGE_KEY_Temperature MESSAGE_KEY_Conditions iterator s = s ∧
      text_layer_get_text
        (inbox_received_callback MESSAGE_KEY_Temperature MESSAGE_KEY_Conditions iterator s)
        (inbox_received_callback MESSAGE_KEY_Temperature MESSAGE_KEY_Conditions iterator
          s).s_weather_layer = text_layer_get_text s s.s_weather_layer ∧
      (inbox_received_callback MESSAGE_KEY_Temperature MESSAGE_KEY_Conditions iterator
        s).weather_layer_buffer = s.weather_layer_buffer := by
  have hs : inbox_received_callback MESSAGE_KEY_Temperature MESSAGE_KEY_Conditions
      iterator s = s := by
    unfold inbox_received_callback
    rcases h with h | h
    · rw [h]
    · rw [h]
      cases dict_find iterator MESSAGE_KEY_Temperature <;> rfl
  rw [hs]
  exact ⟨rfl, rfl, rfl⟩

theorem C3_inbox_received_missing_witness :
    inbox_received_callback 0 1 temperatureOnlyMessage sampleApp = sampleApp ∧
      text_layer_get_text (inbox_received_callback 0 1 temperatureOnlyMessage sampleApp)
        (inbox_received_callback 0 1 temperatureOnlyMessage sampleApp).s_weather_layer
        = text_layer_get_text sampleApp sampleApp.s_weather_layer ∧
      (inbox_received_callback 0 1 temperatureOnlyMessage sampleApp).weather_layer_buffer
        = sampleApp.weather_layer_buffer :=
  C3_inbox_received_missing 0 1 temperatureOnlyMessage sampleApp (Or.inr (by decide))

end Watchface
